import Mathlib

/-!
Verification development for the chordy pitch/interval library.

The definitions below are shallow embeddings of the Rust sources:
  * `Letter`, `Accidental`        from src/types/letter.rs, src/types/accidental.rs
  * `Pitch` and its `transpose`   from src/types/pitch.rs (the same algorithm as
                                  ChromaticTransposer::transpose in src/transposition/chromatic.rs)
  * `NoteName` (line-of-fifths)   from src/types/note_name.rs
  * `Scale.degree_of` and `Scale.chromatic_degree` from src/types/scale.rs
  * `Interval` (quality and size) and `ChordQuality.detect` from src/types/interval.rs and
                                  src/types/chord/quality.rs

Machine integers (i8, i32) are modelled as unbounded `Int`; Rust's truncating
`/` and `%` are rendered as `Int.tdiv` / `Int.tmod`, and `rem_euclid` as
`Int.emod`.  A Rust `panic!` is modelled by returning `none`.
-/

/-- The seven letter names, in the declaration order of src/types/letter.rs
(`repr(i8)` with no explicit discriminants, so `as i8` is the ordinal C=0 .. B=6). -/
inductive Letter where
  | C | D | E | F | G | A | B
  deriving DecidableEq, Repr

/-- The five accidentals of src/types/accidental.rs. -/
inductive Accidental where
  | DoubleFlat | Flat | Natural | Sharp | DoubleSharp
  deriving DecidableEq, Repr

namespace Letter

/-- The `as i8` cast of the Rust enum (ordinal position). -/
def idx : Letter → Int
  | C => 0 | D => 1 | E => 2 | F => 3 | G => 4 | A => 5 | B => 6

/-- `Letter::base_midi_number` (src/types/letter.rs). -/
def base_midi_number : Letter → Int
  | C => 0 | D => 2 | E => 4 | F => 5 | G => 7 | A => 9 | B => 11

/-- `Letter::next` (src/types/letter.rs). -/
def next : Letter → Letter
  | C => D | D => E | E => F | F => G | G => A | A => B | B => C

/-- `Letter::prev` (src/types/letter.rs). -/
def prev : Letter → Letter
  | C => B | D => C | E => D | F => E | G => F | A => G | B => A

/-- `Letter::all` (src/types/letter.rs). -/
def all : List Letter := [C, D, E, F, G, A, B]

end Letter

namespace Accidental

/-- `Accidental::all` (src/types/accidental.rs). -/
def all : List Accidental := [DoubleFlat, Flat, Natural, Sharp, DoubleSharp]

/-- `Accidental::semitone_offset`: the `repr(i8)` value of the variant. -/
def semitone_offset : Accidental → Int
  | DoubleFlat => -2 | Flat => -1 | Natural => 0 | Sharp => 1 | DoubleSharp => 2

/-- `Accidental::penalty` (src/types/accidental.rs). -/
def penalty : Accidental → Int
  | Natural => 0
  | Sharp => 1 | Flat => 1
  | DoubleSharp => 3 | DoubleFlat => 3

/-- `Accidental::is_sharp` (src/types/accidental.rs). -/
def is_sharp : Accidental → Bool
  | Sharp => true | DoubleSharp => true
  | _ => false

/-- `Accidental::is_flat` (src/types/accidental.rs). -/
def is_flat : Accidental → Bool
  | Flat => true | DoubleFlat => true
  | _ => false

end Accidental

/-- `Pitch` (src/types/pitch.rs): a spelled note name (letter + accidental)
together with an octave.  `Pitch::new(letter, accidental, octave)` is the
anonymous constructor. -/
structure Pitch where
  letter : Letter
  accidental : Accidental
  octave : Int
  deriving DecidableEq, Repr

namespace Pitch

/-- `Pitch::midi_number` (src/types/pitch.rs): MIDI octaves start at -2, C-2 is note 0. -/
def midi_number (p : Pitch) : Int :=
  p.letter.base_midi_number + p.accidental.semitone_offset + (p.octave + 2) * 12

/-- `Pitch::is_suspicious_spelling` (src/types/pitch.rs). -/
def is_suspicious_spelling (p : Pitch) : Bool :=
  match p.letter, p.accidental with
  | Letter.B, Accidental.Sharp => true
  | Letter.E, Accidental.Sharp => true
  | Letter.C, Accidental.Flat => true
  | Letter.F, Accidental.Flat => true
  | _, _ => false

end Pitch

/-- The `match` of the free function `interval_penalty` of src/types/pitch.rs
on the pair (letter_diff, semitone_diff), rendered as a sequential test of its
(mutually disjoint) rows. -/
def interval_penalty_table (letter_diff semitone_diff : Int) : Int :=
  if letter_diff = 0 ∧ semitone_diff = 0 then 0            -- Perfect unison
  else if (letter_diff = 1 ∧ semitone_diff = 1) ∨ (letter_diff = 6 ∧ semitone_diff = -1) then 0
  else if (letter_diff = 1 ∧ semitone_diff = 2) ∨ (letter_diff = 6 ∧ semitone_diff = -2) then 0
  else if (letter_diff = 2 ∧ semitone_diff = 3) ∨ (letter_diff = 5 ∧ semitone_diff = -3) then 0
  else if (letter_diff = 2 ∧ semitone_diff = 4) ∨ (letter_diff = 5 ∧ semitone_diff = -4) then 0
  else if (letter_diff = 3 ∧ semitone_diff = 5) ∨ (letter_diff = 4 ∧ semitone_diff = -5) then 0
  else if (letter_diff = 4 ∧ semitone_diff = 6) ∨ (letter_diff = 3 ∧ semitone_diff = -6) then 1
  else if (letter_diff = 4 ∧ semitone_diff = 7) ∨ (letter_diff = 3 ∧ semitone_diff = -7) then 0
  else if (letter_diff = 5 ∧ semitone_diff = 8) ∨ (letter_diff = 2 ∧ semitone_diff = -8) then 0
  else if (letter_diff = 5 ∧ semitone_diff = 9) ∨ (letter_diff = 2 ∧ semitone_diff = -9) then 0
  else if (letter_diff = 6 ∧ semitone_diff = 10) ∨ (letter_diff = 1 ∧ semitone_diff = -10) then 0
  else if (letter_diff = 6 ∧ semitone_diff = 11) ∨ (letter_diff = 1 ∧ semitone_diff = -11) then 0
  else if (letter_diff = 0 ∧ semitone_diff = 12) ∨ (letter_diff = 0 ∧ semitone_diff = -12) then 0
  else if semitone_diff = 6 ∨ semitone_diff = -6 then 1    -- Tritone variants
  else if semitone_diff = 1 ∨ semitone_diff = -1 ∨ semitone_diff = 2 ∨ semitone_diff = -2 then 2
  else 4                                                   -- Rare or ugly intervals

/-- The free function `interval_penalty` of src/types/pitch.rs: the diatonic
letter distance `(to_letter - from_letter).rem_euclid(7)` and the chromatic
semitone difference of the MIDI numbers, classified by the match table. -/
def interval_penalty (src dst : Pitch) : Int :=
  let from_letter := src.letter.idx
  let to_letter := dst.letter.idx
  let letter_diff := (to_letter - from_letter).emod 7
  let semitone_diff := dst.midi_number - src.midi_number
  interval_penalty_table letter_diff semitone_diff

/-- The free function `expected_letter` of src/types/pitch.rs. -/
def expected_letter (src : Letter) (semitone_offset : Int) : Letter :=
  let direction : Int := if semitone_offset ≥ 0 then 1 else -1
  let steps : Nat :=
    if semitone_offset.natAbs = 0 then 0
    else if semitone_offset.natAbs = 1 ∨ semitone_offset.natAbs = 2 then 1
    else if semitone_offset.natAbs = 3 ∨ semitone_offset.natAbs = 4 then 2
    else if semitone_offset.natAbs = 5 then 3
    else if semitone_offset.natAbs = 6 ∨ semitone_offset.natAbs = 7 then 4
    else if semitone_offset.natAbs = 8 ∨ semitone_offset.natAbs = 9 then 5
    else if semitone_offset.natAbs = 10 ∨ semitone_offset.natAbs = 11 then 6
    else 7
  (List.range steps).foldl (fun letter _ => if direction > 0 then letter.next else letter.prev) src

/-- The free function `flat_vs_sharp_bias` of src/types/pitch.rs. -/
def flat_vs_sharp_bias (accidental : Accidental) (semitone_offset : Int) : Int :=
  if semitone_offset < 0 ∧ (accidental = Accidental.Flat ∨ accidental = Accidental.DoubleFlat) then 0
  else if semitone_offset > 0 ∧ (accidental = Accidental.Sharp ∨ accidental = Accidental.DoubleSharp) then 0
  else if accidental = Accidental.Natural then 0
  else 2

/-- The candidate enumeration order of `Pitch::transpose`: outer loop over
`Letter::all()`, inner loop over `Accidental::all()`. -/
def transposeCandidates : List (Letter × Accidental) :=
  Letter.all.flatMap (fun letter => Accidental.all.map (fun accidental => (letter, accidental)))

/-- The body of the candidate loop of `Pitch::transpose` (src/types/pitch.rs):
given the source pitch, the offset, the target MIDI value and the running
(best_pitch, best_score) state, process one (letter, accidental) candidate.
Mirrors the Rust control flow: octave guess from truncating division, ±1 octave
correction, exact-MIDI filter, penalty sum, and the `<=`-update with the two
polarity-guarded assignments of `best_pitch` (`best_score` is updated even when
neither guard fires). -/
def transposeStep (src : Pitch) (semitone_offset target_midi : Int)
    (st : Option Pitch × Int) (cand : Letter × Accidental) : Option Pitch × Int :=
  let letter := cand.1
  let accidental := cand.2
  let base_index := letter.base_midi_number
  let candidate_octave := target_midi.tdiv 12 - 2
  let semitone := base_index + accidental.semitone_offset + 12 * (candidate_octave + 2)
  let diff := semitone - target_midi
  let pitch_guess : Pitch :=
    if diff > 6 then ⟨letter, accidental, candidate_octave - 1⟩
    else if diff < -6 then ⟨letter, accidental, candidate_octave + 1⟩
    else ⟨letter, accidental, candidate_octave⟩
  if pitch_guess.midi_number ≠ target_midi then st   -- skip invalid guesses
  else
    let interval_class_penalty := interval_penalty src pitch_guess
    let spelling_penalty := if src.accidental ≠ accidental then accidental.penalty else 0
    let letter_distance := (pitch_guess.letter.idx - src.letter.idx).emod 7
    let unnatural_motion_penalty := if letter_distance = 6 ∨ letter_distance = 0 then 2 else 0
    let enharmonic_suspicion_penalty := if pitch_guess.is_suspicious_spelling then 3 else 0
    let expected := expected_letter src.letter semitone_offset
    let letter_bias_penalty := if letter ≠ expected then 2 else 0
    let direction_bias_penalty := flat_vs_sharp_bias accidental semitone_offset
    let total_penalty := interval_class_penalty + spelling_penalty + unnatural_motion_penalty
      + enharmonic_suspicion_penalty + letter_bias_penalty + direction_bias_penalty
    if total_penalty ≤ st.2 then
      let best1 : Option Pitch :=
        if semitone_offset < 0 ∧ (¬ accidental.is_sharp ∨ src.accidental.is_sharp)
        then some pitch_guess else st.1
      let best2 : Option Pitch :=
        if semitone_offset > 0 ∧ (¬ accidental.is_flat ∨ src.accidental.is_flat)
        then some pitch_guess else best1
      (best2, total_penalty)
    else st

/-- `Pitch::transpose` (src/types/pitch.rs); the terminal
`best_pitch.unwrap_or_else(|| panic!("No valid pitch spelling found ..."))`
is modelled by returning the final `best_pitch` as-is, so `none` marks the
panic.  `i32::MAX` is the initial best score. -/
def Pitch.transpose (p : Pitch) (semitone_offset : Int) : Option Pitch :=
  if semitone_offset = 0 then some p
  else
    let target_midi := p.midi_number + semitone_offset
    (transposeCandidates.foldl (transposeStep p semitone_offset target_midi)
      (none, 2147483647)).1

/-- `NoteName` (src/types/note_name.rs): a single signed coordinate on the
line of fifths.  The Rust type is `struct NoteName(i8)`. -/
structure NoteName where
  fifths : Int
  deriving DecidableEq, Repr

namespace NoteName

/-- `NoteName::new` (src/types/note_name.rs): the literal 35-case table. -/
def new (letter : Letter) (accidental : Accidental) : NoteName :=
  match letter, accidental with
  | Letter.F, Accidental.DoubleFlat => ⟨-15⟩
  | Letter.C, Accidental.DoubleFlat => ⟨-14⟩
  | Letter.G, Accidental.DoubleFlat => ⟨-13⟩
  | Letter.D, Accidental.DoubleFlat => ⟨-12⟩
  | Letter.A, Accidental.DoubleFlat => ⟨-11⟩
  | Letter.E, Accidental.DoubleFlat => ⟨-10⟩
  | Letter.B, Accidental.DoubleFlat => ⟨-9⟩
  | Letter.F, Accidental.Flat => ⟨-8⟩
  | Letter.C, Accidental.Flat => ⟨-7⟩
  | Letter.G, Accidental.Flat => ⟨-6⟩
  | Letter.D, Accidental.Flat => ⟨-5⟩
  | Letter.A, Accidental.Flat => ⟨-4⟩
  | Letter.E, Accidental.Flat => ⟨-3⟩
  | Letter.B, Accidental.Flat => ⟨-2⟩
  | Letter.F, Accidental.Natural => ⟨-1⟩
  | Letter.C, Accidental.Natural => ⟨0⟩
  | Letter.G, Accidental.Natural => ⟨1⟩
  | Letter.D, Accidental.Natural => ⟨2⟩
  | Letter.A, Accidental.Natural => ⟨3⟩
  | Letter.E, Accidental.Natural => ⟨4⟩
  | Letter.B, Accidental.Natural => ⟨5⟩
  | Letter.F, Accidental.Sharp => ⟨6⟩
  | Letter.C, Accidental.Sharp => ⟨7⟩
  | Letter.G, Accidental.Sharp => ⟨8⟩
  | Letter.D, Accidental.Sharp => ⟨9⟩
  | Letter.A, Accidental.Sharp => ⟨10⟩
  | Letter.E, Accidental.Sharp => ⟨11⟩
  | Letter.B, Accidental.Sharp => ⟨12⟩
  | Letter.F, Accidental.DoubleSharp => ⟨13⟩
  | Letter.C, Accidental.DoubleSharp => ⟨14⟩
  | Letter.G, Accidental.DoubleSharp => ⟨15⟩
  | Letter.D, Accidental.DoubleSharp => ⟨16⟩
  | Letter.A, Accidental.DoubleSharp => ⟨17⟩
  | Letter.E, Accidental.DoubleSharp => ⟨18⟩
  | Letter.B, Accidental.DoubleSharp => ⟨19⟩

/-- `NoteName::from_fifths` (src/types/note_name.rs): no validation at all. -/
def from_fifths (fifths : Int) : NoteName := ⟨fifths⟩

/-- `NoteName::letter` (src/types/note_name.rs): `(self.0 + 15) % 7` (Rust `%`
is truncating `tmod`) indexed into the line-of-fifths cycle F,C,G,D,A,E,B; the
`unreachable!()` arm (hit only when the `tmod` is negative, i.e. coordinate
below -15 ... -21 etc.) is modelled as `none`. -/
def letter (n : NoteName) : Option Letter :=
  let r := (n.fifths + 15).tmod 7
  if r = 0 then some Letter.F
  else if r = 1 then some Letter.C
  else if r = 2 then some Letter.G
  else if r = 3 then some Letter.D
  else if r = 4 then some Letter.A
  else if r = 5 then some Letter.E
  else if r = 6 then some Letter.B
  else none

/-- `NoteName::accidental` (src/types/note_name.rs): banded ranges of the
coordinate; the `panic!("Invalid NoteName value")` arm is modelled as `none`. -/
def accidental (n : NoteName) : Option Accidental :=
  if -15 ≤ n.fifths ∧ n.fifths < -8 then some Accidental.DoubleFlat
  else if -8 ≤ n.fifths ∧ n.fifths < -1 then some Accidental.Flat
  else if -1 ≤ n.fifths ∧ n.fifths < 6 then some Accidental.Natural
  else if 6 ≤ n.fifths ∧ n.fifths < 13 then some Accidental.Sharp
  else if 13 ≤ n.fifths ∧ n.fifths ≤ 19 then some Accidental.DoubleSharp
  else none

/-- `NoteName::base_midi_number` (src/types/note_name.rs):
`letter().base_midi_number() + accidental().semitone_offset()`.  On a
coordinate outside -15..=19 the source panics (inside `accidental`); that
path is modelled by the junk value 0 and is never exercised below (every
note reaching it is a concrete in-band coordinate). -/
def base_midi_number (n : NoteName) : Int :=
  match n.letter, n.accidental with
  | some l, some a => l.base_midi_number + a.semitone_offset
  | _, _ => 0

/-- `NoteName::is_enharmonic_with` (src/types/note_name.rs):
`(a + 12) % 12 == (b + 12) % 12` on base MIDI numbers (Rust truncating `%`). -/
def is_enharmonic_with (n other : NoteName) : Bool :=
  (n.base_midi_number + 12).tmod 12 = (other.base_midi_number + 12).tmod 12

end NoteName

/-- Modelled from the spec: the `Interval` value used by the torsor
implementations `impl Add<Interval> for NoteName` / `impl Sub<NoteName> for
NoteName` in src/types/note_name.rs (which read `interval.fifths` and call
`Interval::with_fifths`) is not among the source files; per the data model in
the spec it carries a `fifths` coordinate on the line of fifths plus an
`octaves` displacement, and two intervals are equal iff both fields match
exactly. -/
structure FifthsInterval where
  fifths : Int
  octaves : Int
  deriving DecidableEq, Repr

namespace FifthsInterval

/-- Modelled from the spec: `Interval::with_fifths` (missing from the source
files) builds the interval with the given `fifths` coordinate; the note
difference that uses it has its "octave component fixed at 0". -/
def with_fifths (fifths : Int) : FifthsInterval := ⟨fifths, 0⟩

end FifthsInterval

/-- `impl Add<Interval> for NoteName` (src/types/note_name.rs):
`Self(self.0 + interval.fifths)`. -/
def NoteName.add (n : NoteName) (interval : FifthsInterval) : NoteName :=
  ⟨n.fifths + interval.fifths⟩

/-- `impl Sub<NoteName> for NoteName` (src/types/note_name.rs):
`Interval::with_fifths(self.0 - other.0)`. -/
def NoteName.sub (n other : NoteName) : FifthsInterval :=
  FifthsInterval.with_fifths (n.fifths - other.fifths)

namespace Chordy

/-- `IntervalQuality` (src/types/interval.rs); the `u8` augmentation /
diminution counts become `Nat`. -/
inductive IntervalQuality where
  | Perfect | Major | Minor
  | Augmented (n : Nat)
  | Diminished (n : Nat)
  deriving DecidableEq, Repr

/-- `IntervalSize` (src/types/interval.rs). -/
inductive IntervalSize where
  | Unison | Second | Third | Fourth | Fifth | Sixth | Seventh | Octave
  | Ninth | Tenth | Eleventh | Twelfth | Thirteenth
  deriving DecidableEq, Repr

/-- `IntervalDirection` (src/types/interval.rs). -/
inductive IntervalDirection where
  | Ascending | Descending
  deriving DecidableEq, Repr

/-- `Interval` (src/types/interval.rs): quality, size and direction. -/
structure Interval where
  quality : IntervalQuality
  size : IntervalSize
  direction : IntervalDirection
  deriving DecidableEq, Repr

namespace Interval

/-- `Interval::UNISON` (src/types/interval.rs). -/
def UNISON : Interval := ⟨IntervalQuality.Perfect, IntervalSize.Unison, IntervalDirection.Ascending⟩

/-- `Interval::MINOR_SECOND` (src/types/interval.rs). -/
def MINOR_SECOND : Interval := ⟨IntervalQuality.Minor, IntervalSize.Second, IntervalDirection.Ascending⟩

/-- `Interval::MAJOR_SECOND` (src/types/interval.rs). -/
def MAJOR_SECOND : Interval := ⟨IntervalQuality.Major, IntervalSize.Second, IntervalDirection.Ascending⟩

/-- `Interval::MINOR_THIRD` (src/types/interval.rs). -/
def MINOR_THIRD : Interval := ⟨IntervalQuality.Minor, IntervalSize.Third, IntervalDirection.Ascending⟩

/-- `Interval::MAJOR_THIRD` (src/types/interval.rs). -/
def MAJOR_THIRD : Interval := ⟨IntervalQuality.Major, IntervalSize.Third, IntervalDirection.Ascending⟩

/-- `Interval::PERFECT_FOURTH` (src/types/interval.rs). -/
def PERFECT_FOURTH : Interval := ⟨IntervalQuality.Perfect, IntervalSize.Fourth, IntervalDirection.Ascending⟩

/-- `Interval::TRITONE` (src/types/interval.rs): an augmented fourth. -/
def TRITONE : Interval := ⟨IntervalQuality.Augmented 1, IntervalSize.Fourth, IntervalDirection.Ascending⟩

/-- `Interval::DIMINISHED_FIFTH` (src/types/interval.rs). -/
def DIMINISHED_FIFTH : Interval := ⟨IntervalQuality.Diminished 1, IntervalSize.Fifth, IntervalDirection.Ascending⟩

/-- `Interval::PERFECT_FIFTH` (src/types/interval.rs). -/
def PERFECT_FIFTH : Interval := ⟨IntervalQuality.Perfect, IntervalSize.Fifth, IntervalDirection.Ascending⟩

/-- `Interval::AUGMENTED_FIFTH` (src/types/interval.rs). -/
def AUGMENTED_FIFTH : Interval := ⟨IntervalQuality.Augmented 1, IntervalSize.Fifth, IntervalDirection.Ascending⟩

/-- `Interval::MINOR_SIXTH` (src/types/interval.rs). -/
def MINOR_SIXTH : Interval := ⟨IntervalQuality.Minor, IntervalSize.Sixth, IntervalDirection.Ascending⟩

/-- `Interval::MAJOR_SIXTH` (src/types/interval.rs). -/
def MAJOR_SIXTH : Interval := ⟨IntervalQuality.Major, IntervalSize.Sixth, IntervalDirection.Ascending⟩

/-- `Interval::MINOR_SEVENTH` (src/types/interval.rs). -/
def MINOR_SEVENTH : Interval := ⟨IntervalQuality.Minor, IntervalSize.Seventh, IntervalDirection.Ascending⟩

/-- `Interval::MAJOR_SEVENTH` (src/types/interval.rs). -/
def MAJOR_SEVENTH : Interval := ⟨IntervalQuality.Major, IntervalSize.Seventh, IntervalDirection.Ascending⟩

/-- `Interval::OCTAVE` (src/types/interval.rs). -/
def OCTAVE : Interval := ⟨IntervalQuality.Perfect, IntervalSize.Octave, IntervalDirection.Ascending⟩

end Interval

/-- `ChordQuality` (src/types/chord/quality.rs). -/
inductive ChordQuality where
  | Major | Minor | Diminished | Augmented
  deriving DecidableEq, Repr

/-- `ChordQuality::detect` (src/types/chord/quality.rs) on the interval list of
the chord (the `HasIntervals` implementor).  The counting loop matches each
interval against the five named constants; the two guarded `match`es on the
counts and the final `match` on (third_type, fifth_type) — whose arms are
mutually disjoint — are rendered as sequential tests.  Fifth types Perfect /
Diminished / Augmented are encoded by `some 0` / `some (-1)` / `some 1` as in
the source, thirds by `some true` / `some false`. -/
def ChordQuality.detect (intervals : List Interval) : Option ChordQuality :=
  let major_thirds := intervals.count Interval.MAJOR_THIRD
  let minor_thirds := intervals.count Interval.MINOR_THIRD
  let perfect_fifths := intervals.count Interval.PERFECT_FIFTH
  let diminished_fifths := intervals.count Interval.DIMINISHED_FIFTH
  let augmented_fifths := intervals.count Interval.AUGMENTED_FIFTH
  let third_type : Option Bool :=
    if major_thirds > minor_thirds then some true
    else if minor_thirds > major_thirds then some false
    else none
  let fifth_type : Option Int :=
    if perfect_fifths > diminished_fifths ∧ perfect_fifths > augmented_fifths then some 0
    else if diminished_fifths > perfect_fifths ∧ diminished_fifths > augmented_fifths then some (-1)
    else if augmented_fifths > perfect_fifths ∧ augmented_fifths > diminished_fifths then some 1
    else none
  if third_type = some true ∧ fifth_type = some 0 then some ChordQuality.Major
  else if third_type = some false ∧ fifth_type = some 0 then some ChordQuality.Minor
  else if third_type = some false ∧ fifth_type = some (-1) then some ChordQuality.Diminished
  else if third_type = some true ∧ fifth_type = some 1 then some ChordQuality.Augmented
  else if third_type = some false ∧ fifth_type = none then some ChordQuality.Minor
  else if third_type = some true ∧ fifth_type = none then some ChordQuality.Major
  else none

end Chordy

namespace Chordy

/-- `ScaleType` (src/types/scale.rs).  The source enum also has a
`MelodicMinor` variant, but its `intervals()` arm is the catch-all
`todo!()` (a panic); that variant is omitted here so that `intervals`
stays total, and no claim concerns it. -/
inductive ScaleType where
  | Major | NaturalMinor | HarmonicMinor
  | Dorian | Phrygian | Lydian | Mixolydian | Locrian
  deriving DecidableEq, Repr

/-- `ScaleType::intervals` (src/types/scale.rs). -/
def ScaleType.intervals : ScaleType → List Interval
  | ScaleType.Major =>
      [Interval.MAJOR_SECOND, Interval.MAJOR_THIRD, Interval.PERFECT_FOURTH,
       Interval.PERFECT_FIFTH, Interval.MAJOR_SIXTH, Interval.MAJOR_SEVENTH]
  | ScaleType.NaturalMinor =>
      [Interval.MAJOR_SECOND, Interval.MINOR_THIRD, Interval.PERFECT_FOURTH,
       Interval.PERFECT_FIFTH, Interval.MINOR_SIXTH, Interval.MINOR_SEVENTH]
  | ScaleType.Dorian =>
      [Interval.MAJOR_SECOND, Interval.MINOR_THIRD, Interval.PERFECT_FOURTH,
       Interval.PERFECT_FIFTH, Interval.MAJOR_SIXTH, Interval.MINOR_SEVENTH]
  | ScaleType.Phrygian =>
      [Interval.MINOR_SECOND, Interval.MINOR_THIRD, Interval.PERFECT_FOURTH,
       Interval.PERFECT_FIFTH, Interval.MINOR_SIXTH, Interval.MINOR_SEVENTH]
  | ScaleType.Lydian =>
      [Interval.MAJOR_SECOND, Interval.MAJOR_THIRD, Interval.TRITONE,
       Interval.PERFECT_FIFTH, Interval.MAJOR_SIXTH, Interval.MAJOR_SEVENTH]
  | ScaleType.Mixolydian =>
      [Interval.MAJOR_SECOND, Interval.MAJOR_THIRD, Interval.PERFECT_FOURTH,
       Interval.PERFECT_FIFTH, Interval.MAJOR_SIXTH, Interval.MINOR_SEVENTH]
  | ScaleType.Locrian =>
      [Interval.MINOR_SECOND, Interval.MINOR_THIRD, Interval.PERFECT_FOURTH,
       Interval.DIMINISHED_FIFTH, Interval.MINOR_SIXTH, Interval.MINOR_SEVENTH]
  | ScaleType.HarmonicMinor =>
      [Interval.MAJOR_SECOND, Interval.MINOR_THIRD, Interval.PERFECT_FOURTH,
       Interval.PERFECT_FIFTH, Interval.MINOR_SIXTH, Interval.MAJOR_SEVENTH]

/-- Modelled from the spec: the line-of-fifths coordinate of a simple
ascending interval.  The scale-note computation in `Scale::notes`
(src/types/scale.rs) calls a two-argument `NoteName::transpose_by_interval`
that is not among the source files; per the spec, a note name plus an
interval is line-of-fifths addition, so each interval used in the scale
patterns is assigned its standard coordinate: perfect / major sizes map
unison, 2nd, 3rd, 4th, 5th, 6th, 7th to 0, 2, 4, -1, 1, 3, 5; a minor or
(on a perfect size) diminished quality subtracts 7; an augmented quality
adds 7. -/
def Interval.line_of_fifths (i : Interval) : Int :=
  let base : Int :=
    match i.size with
    | IntervalSize.Unison => 0
    | IntervalSize.Second => 2
    | IntervalSize.Third => 4
    | IntervalSize.Fourth => -1
    | IntervalSize.Fifth => 1
    | IntervalSize.Sixth => 3
    | IntervalSize.Seventh => 5
    | _ => 0
  match i.quality with
  | IntervalQuality.Perfect => base
  | IntervalQuality.Major => base
  | IntervalQuality.Minor => base - 7
  | IntervalQuality.Diminished _ => base - 7
  | IntervalQuality.Augmented _ => base + 7

/-- `Scale` (src/types/scale.rs): tonic plus scale type.  The optional
`key_signature` field is always `None` for `Scale::new` and the inferred
signature is the all-natural placeholder, so it is not represented. -/
structure Scale where
  tonic : NoteName
  scale_type : ScaleType
  deriving DecidableEq, Repr

/-- `Scale::notes` (src/types/scale.rs): the tonic followed by the tonic
transposed by each interval of the pattern.  The per-note call
`tonic.transpose_by_interval(interval, &key_sig)` is modelled from the spec
as line-of-fifths addition (see `Interval.line_of_fifths`); the key
signature inferred by the source is the all-natural placeholder.  For the
C-major instance this agrees with the doc-test of `Scale::notes`:
C, D, E, F, G, A, B. -/
def Scale.notes (s : Scale) : List NoteName :=
  s.tonic :: s.scale_type.intervals.map
    (fun i => s.tonic.add (FifthsInterval.with_fifths i.line_of_fifths))

/-- `Scale::degree_of` (src/types/scale.rs): exact coordinate match first,
then enharmonic match, each returning the 1-based position. -/
def Scale.degree_of (s : Scale) (note : NoteName) : Option Nat :=
  let notes := s.notes
  match notes.findIdx? (fun n => n == note) with
  | some pos => some (pos + 1)
  | none =>
    match notes.findIdx? (fun n => n.is_enharmonic_with note) with
    | some i => some (i + 1)
    | none => none

/-- The chromatic-variant loop of `Scale::chromatic_degree`
(src/types/scale.rs): `for degree in 1..=7` with `notes().get(degree-1)`,
testing the octave-adjusted difference `(semitone_diff + 12) % 12` (Rust
truncating `%`) against 1, 11, 2, 10 in that order.  Scanning the scale-note
list with a 1-based counter is the same iteration, since every embedded
scale has exactly 7 notes. -/
def chromaticScan (note : NoteName) : Nat → List NoteName → Option (Nat × Int)
  | _, [] => none
  | degree, scale_note :: rest =>
    let semitone_diff := note.base_midi_number - scale_note.base_midi_number
    let octave_adjusted_diff := (semitone_diff + 12).tmod 12
    if octave_adjusted_diff = 1 then some (degree, 1)
    else if octave_adjusted_diff = 11 then some (degree, -1)
    else if octave_adjusted_diff = 2 then some (degree, 2)
    else if octave_adjusted_diff = 10 then some (degree, -2)
    else chromaticScan note (degree + 1) rest

/-- `Scale::chromatic_degree` (src/types/scale.rs): an exact or enharmonic
degree first (alteration 0), then the chromatic-variant scan. -/
def Scale.chromatic_degree (s : Scale) (note : NoteName) : Option (Nat × Int) :=
  match s.degree_of note with
  | some degree => some (degree, 0)
  | none => chromaticScan note 1 s.notes

end Chordy

/-- The C-major scale of the literal scenarios: tonic C, Ionian (Major)
pattern. -/
def cMajorScale : Chordy.Scale :=
  ⟨NoteName.new Letter.C Accidental.Natural, Chordy.ScaleType.Major⟩

/-- The (letter-distance, semitone-distance) pairs of the "normal" diatonic
steps that the penalty table scores 0: unison, minor and major 2nd, 3rd, 6th
and 7th, perfect 4th and 5th, and the octave, each in its ascending form and
in its descending form (letter distance complemented mod 7, semitones
negated).  Augmented and diminished forms are absent. -/
def is_diatonic_step (ld sd : Int) : Bool :=
  (ld == 0 && sd == 0) ||                      -- unison
  (ld == 1 && sd == 1) || (ld == 6 && sd == -1) ||   -- minor 2nd
  (ld == 1 && sd == 2) || (ld == 6 && sd == -2) ||   -- major 2nd
  (ld == 2 && sd == 3) || (ld == 5 && sd == -3) ||   -- minor 3rd
  (ld == 2 && sd == 4) || (ld == 5 && sd == -4) ||   -- major 3rd
  (ld == 3 && sd == 5) || (ld == 4 && sd == -5) ||   -- perfect 4th
  (ld == 4 && sd == 7) || (ld == 3 && sd == -7) ||   -- perfect 5th
  (ld == 5 && sd == 8) || (ld == 2 && sd == -8) ||   -- minor 6th
  (ld == 5 && sd == 9) || (ld == 2 && sd == -9) ||   -- major 6th
  (ld == 6 && sd == 10) || (ld == 1 && sd == -10) || -- minor 7th
  (ld == 6 && sd == 11) || (ld == 1 && sd == -11) || -- major 7th
  (ld == 0 && sd == 12) || (ld == 0 && sd == -12)    -- octave

/-- The diatonic-step penalty classification in the words of the (amended)
specification: a clean diatonic step scores 0, any tritone-sized step scores
1, any other step of one or two semitones scores 2, and everything else
scores 4. -/
def interval_penalty_spec (letter_diff semitone_diff : Int) : Int :=
  if is_diatonic_step letter_diff semitone_diff then 0
  else if semitone_diff = 6 ∨ semitone_diff = -6 then 1
  else if semitone_diff = 1 ∨ semitone_diff = -1 ∨ semitone_diff = 2 ∨ semitone_diff = -2 then 2
  else 4

/-- C1: the 'No valid pitch spelling found' panic branch of `Pitch::transpose`
is reachable, contrary to the claim: transposing the plain G natural in
octave 4 down by one semitone leaves `best_pitch` unset (the sharp spelling
F♯4 scores best but is rejected by the downward polarity guard while still
lowering `best_score`, and the acceptable spelling G♭4 scores worse), so the
source panics. -/
theorem c1_panic_reachable :
    Pitch.transpose ⟨Letter.G, Accidental.Natural, 4⟩ (-1) = none := by decide

/-- C2: the six literal conventional-spelling scenarios of the enharmonic
spelling selector: C4 + 1 = C♯4, B4 + 1 = C5, C4 - 1 = B3, F♯4 + 1 = G4,
G4 + 12 = G5, and G4 + 7 = D5. -/
theorem c2_conventional_spelling_scenarios :
    Pitch.transpose ⟨Letter.C, Accidental.Natural, 4⟩ 1 = some ⟨Letter.C, Accidental.Sharp, 4⟩ ∧
    Pitch.transpose ⟨Letter.B, Accidental.Natural, 4⟩ 1 = some ⟨Letter.C, Accidental.Natural, 5⟩ ∧
    Pitch.transpose ⟨Letter.C, Accidental.Natural, 4⟩ (-1) = some ⟨Letter.B, Accidental.Natural, 3⟩ ∧
    Pitch.transpose ⟨Letter.F, Accidental.Sharp, 4⟩ 1 = some ⟨Letter.G, Accidental.Natural, 4⟩ ∧
    Pitch.transpose ⟨Letter.G, Accidental.Natural, 4⟩ 12 = some ⟨Letter.G, Accidental.Natural, 5⟩ ∧
    Pitch.transpose ⟨Letter.G, Accidental.Natural, 4⟩ 7 = some ⟨Letter.D, Accidental.Natural, 5⟩ := by
  refine ⟨by decide, by decide, by decide, by decide, by decide, by decide⟩

/-- C3: transposing any pitch by 0 semitones returns the identical pitch
(the selector returns its input unchanged before any candidate search). -/
theorem c3_transpose_zero_is_identity (p : Pitch) : Pitch.transpose p 0 = some p := by
  simp [Pitch.transpose]

/-- C5: scale-degree resolution in C major evaluated on the three literal
queries.  C♯ resolves to step 1 with a sharp (+1) alteration and B♯ to step 1
with no alteration, as claimed; but F♯ resolves to step 3 with a double-sharp
(+2) alteration — the chromatic scan reaches the third degree E (two semitones
below F♯) before the fourth degree F — contradicting the claimed step 4 with a
sharp alteration, which is also what the doc-test of `Scale::chromatic_degree`
itself asserts. -/
theorem c5_chromatic_degree_literals :
    cMajorScale.chromatic_degree (NoteName.new Letter.C Accidental.Sharp) = some (1, 1) ∧
    cMajorScale.chromatic_degree (NoteName.new Letter.B Accidental.Sharp) = some (1, 0) ∧
    cMajorScale.chromatic_degree (NoteName.new Letter.F Accidental.Sharp) = some (3, 2) := by
  refine ⟨by decide, by decide, by decide⟩

/-- C6: the resolver has no flat-polarity tier.  The query D♭ carries a flat
and the C-major scale note D (step 2) lies exactly one semitone above it, and
neither the exact tier nor the enharmonic tier succeeds; but the resolver
reports step 1 with a sharp (+1) alteration — the first degree C is one
semitone below D♭ and the scan tests degrees in ascending order with no
polarity preference — not the claimed step 2 with a flat alteration. -/
theorem c6_no_flat_polarity_tier :
    cMajorScale.degree_of (NoteName.new Letter.D Accidental.Flat) = none ∧
    (NoteName.new Letter.D Accidental.Natural).base_midi_number -
      (NoteName.new Letter.D Accidental.Flat).base_midi_number = 1 ∧
    cMajorScale.notes.get? 1 = some (NoteName.new Letter.D Accidental.Natural) ∧
    cMajorScale.chromatic_degree (NoteName.new Letter.D Accidental.Flat) = some (1, 1) := by
  refine ⟨by decide, by decide, by decide, by decide⟩

/-- C7: for each of the 35 valid (letter, accidental) pairs, constructing a
NoteName and reading back the letter and the accidental reproduces exactly
the original pair. -/
theorem c7_note_name_round_trip (letter : Letter) (accidental : Accidental) :
    (NoteName.new letter accidental).letter = some letter ∧
    (NoteName.new letter accidental).accidental = some accidental := by
  cases letter <;> cases accidental <;> exact ⟨by decide, by decide⟩

/-- C8 counterexample: the first torsor law fails for an interval with a
non-zero octave component.  With p the note C and v the perfect octave
(fifths 0, octaves 1), `(p + v) - p` is the unison (fifths 0, octaves 0),
which is a different interval value from v, since intervals are equal only
when both fields match. -/
theorem c8_octave_interval_breaks_first_law :
    ((NoteName.new Letter.C Accidental.Natural).add ⟨0, 1⟩).sub
        (NoteName.new Letter.C Accidental.Natural) ≠ (⟨0, 1⟩ : FifthsInterval) := by
  decide

/-- C8 (amended): the torsor laws as the implementation satisfies them —
`(p + v) - p = v` holds for every interval whose octave component is 0
(the note difference always produces octave component 0), and
`p + (q - p) = q` holds for all notes p, q. -/
theorem c8_torsor_laws_amended (p q : NoteName) (v : FifthsInterval) :
    (v.octaves = 0 → (p.add v).sub p = v) ∧ p.add (q.sub p) = q := by
  constructor
  · intro h
    cases v with
    | mk f o =>
      simp only [NoteName.add, NoteName.sub, FifthsInterval.with_fifths] at *
      subst h
      congr 1
      omega
  · cases p with
    | mk pf =>
      cases q with
      | mk qf =>
        simp only [NoteName.add, NoteName.sub, FifthsInterval.with_fifths]
        congr 1
        omega

/-- C8 witness: the amended laws at concrete inputs — p = C, q = D and
v = the major second (fifths 2, octaves 0). -/
theorem c8_torsor_laws_witness :
    ((NoteName.new Letter.C Accidental.Natural).add ⟨2, 0⟩).sub
        (NoteName.new Letter.C Accidental.Natural) = (⟨2, 0⟩ : FifthsInterval) ∧
    (NoteName.new Letter.C Accidental.Natural).add
        ((NoteName.new Letter.D Accidental.Natural).sub
          (NoteName.new Letter.C Accidental.Natural)) =
      NoteName.new Letter.D Accidental.Natural :=
  ⟨(c8_torsor_laws_amended (NoteName.new Letter.C Accidental.Natural)
      (NoteName.new Letter.D Accidental.Natural) ⟨2, 0⟩).1 rfl,
   (c8_torsor_laws_amended (NoteName.new Letter.C Accidental.Natural)
      (NoteName.new Letter.D Accidental.Natural) ⟨2, 0⟩).2⟩

/-- C10: `NoteName::from_fifths` stores any coordinate without validation,
the torsor action adds the interval's fifths coordinate without keeping the
result inside the valid band, and `accidental()` succeeds exactly on the
band -15..=19 — outside it the source panics (modelled as `none`). -/
theorem c10_accidental_total_exactly_on_band :
    (∀ fifths : Int, (NoteName.from_fifths fifths).fifths = fifths) ∧
    (∀ n : NoteName, -15 ≤ n.fifths ∧ n.fifths ≤ 19 → (n.accidental).isSome = true) ∧
    (∀ n : NoteName, n.fifths < -15 ∨ 19 < n.fifths → n.accidental = none) ∧
    (∀ (n : NoteName) (v : FifthsInterval), (n.add v).fifths = n.fifths + v.fifths) := by
  refine ⟨fun _ => rfl, fun n h => ?_, fun n h => ?_, fun n v => rfl⟩
  · unfold NoteName.accidental
    split_ifs <;> first | rfl | (exfalso; omega)
  · unfold NoteName.accidental
    split_ifs <;> first | rfl | (exfalso; omega)

/-- C10 witness: the coordinate 20 — reachable as `from_fifths(20)` or as
B♯ (coordinate 12) plus an interval with fifths 8 — is outside the band and
`accidental()` fails on it, while the in-band coordinate 5 (B natural)
succeeds. -/
theorem c10_accidental_band_witness :
    (NoteName.from_fifths 20).fifths = 20 ∧
    ((NoteName.new Letter.B Accidental.Sharp).add ⟨8, 0⟩).fifths = 20 ∧
    (NoteName.accidental ⟨5⟩).isSome = true ∧
    NoteName.accidental ⟨20⟩ = none :=
  ⟨c10_accidental_total_exactly_on_band.1 20,
   c10_accidental_total_exactly_on_band.2.2.2 (NoteName.new Letter.B Accidental.Sharp) ⟨8, 0⟩,
   c10_accidental_total_exactly_on_band.2.1 ⟨5⟩ (by decide),
   c10_accidental_total_exactly_on_band.2.2.1 ⟨20⟩ (by decide)⟩

theorem interval_penalty_table_big (ld sd : Int) (h : sd < -12 ∨ 12 < sd) :
    interval_penalty_table ld sd = 4 := by
  unfold interval_penalty_table
  repeat rw [if_neg (by omega)]

theorem interval_penalty_spec_big (ld sd : Int) (h : sd < -12 ∨ 12 < sd) :
    interval_penalty_spec ld sd = 4 := by
  have hd : ¬ (is_diatonic_step ld sd = true) := by
    simp only [is_diatonic_step, Bool.or_eq_true, Bool.and_eq_true, beq_iff_eq]
    omega
  unfold interval_penalty_spec
  rw [if_neg hd]
  repeat rw [if_neg (by omega)]

set_option maxHeartbeats 1600000 in
theorem interval_penalty_table_eq_spec (ld sd : Int) (h1 : 0 ≤ ld) (h2 : ld < 7) :
    interval_penalty_table ld sd = interval_penalty_spec ld sd := by
  by_cases hbig : sd < -12 ∨ 12 < sd
  · rw [interval_penalty_table_big ld sd hbig, interval_penalty_spec_big ld sd hbig]
  · push_neg at hbig
    obtain ⟨ha, hb⟩ := hbig
    interval_cases ld <;> interval_cases sd <;> decide

/-- C4 counterexample: the augmented-second step gets penalty 4, not the
claimed 0.  From C4 to D♯4 the letter distance is 1 and the semitone distance
is 3 (an augmented 2nd ascending), and the penalty function returns 4. -/
theorem c4_augmented_second_scores_four :
    ((Pitch.mk Letter.D Accidental.Sharp 4).letter.idx -
        (Pitch.mk Letter.C Accidental.Natural 4).letter.idx).emod 7 = 1 ∧
    (Pitch.mk Letter.D Accidental.Sharp 4).midi_number -
        (Pitch.mk Letter.C Accidental.Natural 4).midi_number = 3 ∧
    interval_penalty ⟨Letter.C, Accidental.Natural, 4⟩ ⟨Letter.D, Accidental.Sharp, 4⟩ = 4 := by
  refine ⟨by decide, by decide, by decide⟩

/-- C4 (amended): the penalty of any source/candidate pitch pair is classified
by its (letter-distance, semitone-distance) pair as follows — 0 for the clean
diatonic steps (unison, minor and major 2nd, 3rd, 6th and 7th, perfect 4th and
5th, octave, ascending or descending; augmented and diminished forms are not
in the zero table), 1 for any tritone-sized step, 2 for any other step of one
or two semitones, and 4 for everything else. -/
theorem c4_interval_penalty_classification (src dst : Pitch) :
    interval_penalty src dst =
      interval_penalty_spec ((dst.letter.idx - src.letter.idx).emod 7)
        (dst.midi_number - src.midi_number) :=
  interval_penalty_table_eq_spec _ _
    (Int.emod_nonneg _ (by norm_num)) (Int.emod_lt_of_pos _ (by norm_num))

/-- C9 counterexample: a tie in the fifth count does not yield "no quality".
The interval multiset {unison, major third, perfect fifth, diminished fifth}
has one perfect fifth and one diminished fifth (a tie), yet `detect` classifies
it as Major — the tied fifth comparison leaves `fifth_type` empty and the
third-only (diad) arm fires even though the chord has fifths. -/
theorem c9_fifth_tie_not_indeterminate :
    ([Chordy.Interval.UNISON, Chordy.Interval.MAJOR_THIRD, Chordy.Interval.PERFECT_FIFTH,
        Chordy.Interval.DIMINISHED_FIFTH].count Chordy.Interval.PERFECT_FIFTH =
      [Chordy.Interval.UNISON, Chordy.Interval.MAJOR_THIRD, Chordy.Interval.PERFECT_FIFTH,
        Chordy.Interval.DIMINISHED_FIFTH].count Chordy.Interval.DIMINISHED_FIFTH) ∧
    Chordy.ChordQuality.detect [Chordy.Interval.UNISON, Chordy.Interval.MAJOR_THIRD,
        Chordy.Interval.PERFECT_FIFTH, Chordy.Interval.DIMINISHED_FIFTH] =
      some Chordy.ChordQuality.Major := by
  refine ⟨by decide, by decide⟩

set_option maxHeartbeats 1600000 in
/-- C9 (amended): quality detection, characterized by the interval counts.
Writing M, m for the major/minor-third counts and P, D, A for the perfect/
diminished/augmented-fifth counts: Major and Minor require a strict third
winner together with either a strict perfect-fifth winner or no strict fifth
winner at all (no fifths, or tied fifth counts — the diad arm); Diminished
and Augmented require a strict third winner with a strict diminished- resp.
augmented-fifth winner of the matching polarity; everything else — a third
tie or no thirds, or a mismatched strict fifth winner — yields none.  The two
literal scenarios of the claim follow: {unison, major third, perfect fifth}
is Major and {unison, minor third, diminished fifth} is Diminished. -/
theorem c9_quality_detection_by_counts (l : List Chordy.Interval) :
    (Chordy.ChordQuality.detect l = some Chordy.ChordQuality.Major ↔
      l.count Chordy.Interval.MAJOR_THIRD > l.count Chordy.Interval.MINOR_THIRD ∧
      ((l.count Chordy.Interval.PERFECT_FIFTH > l.count Chordy.Interval.DIMINISHED_FIFTH ∧
          l.count Chordy.Interval.PERFECT_FIFTH > l.count Chordy.Interval.AUGMENTED_FIFTH) ∨
        (¬(l.count Chordy.Interval.PERFECT_FIFTH > l.count Chordy.Interval.DIMINISHED_FIFTH ∧
            l.count Chordy.Interval.PERFECT_FIFTH > l.count Chordy.Interval.AUGMENTED_FIFTH) ∧
         ¬(l.count Chordy.Interval.DIMINISHED_FIFTH > l.count Chordy.Interval.PERFECT_FIFTH ∧
            l.count Chordy.Interval.DIMINISHED_FIFTH > l.count Chordy.Interval.AUGMENTED_FIFTH) ∧
         ¬(l.count Chordy.Interval.AUGMENTED_FIFTH > l.count Chordy.Interval.PERFECT_FIFTH ∧
            l.count Chordy.Interval.AUGMENTED_FIFTH > l.count Chordy.Interval.DIMINISHED_FIFTH)))) ∧
    (Chordy.ChordQuality.detect l = some Chordy.ChordQuality.Minor ↔
      l.count Chordy.Interval.MINOR_THIRD > l.count Chordy.Interval.MAJOR_THIRD ∧
      ((l.count Chordy.Interval.PERFECT_FIFTH > l.count Chordy.Interval.DIMINISHED_FIFTH ∧
          l.count Chordy.Interval.PERFECT_FIFTH > l.count Chordy.Interval.AUGMENTED_FIFTH) ∨
        (¬(l.count Chordy.Interval.PERFECT_FIFTH > l.count Chordy.Interval.DIMINISHED_FIFTH ∧
            l.count Chordy.Interval.PERFECT_FIFTH > l.count Chordy.Interval.AUGMENTED_FIFTH) ∧
         ¬(l.count Chordy.Interval.DIMINISHED_FIFTH > l.count Chordy.Interval.PERFECT_FIFTH ∧
            l.count Chordy.Interval.DIMINISHED_FIFTH > l.count Chordy.Interval.AUGMENTED_FIFTH) ∧
         ¬(l.count Chordy.Interval.AUGMENTED_FIFTH > l.count Chordy.Interval.PERFECT_FIFTH ∧
            l.count Chordy.Interval.AUGMENTED_FIFTH > l.count Chordy.Interval.DIMINISHED_FIFTH)))) ∧
    (Chordy.ChordQuality.detect l = some Chordy.ChordQuality.Diminished ↔
      l.count Chordy.Interval.MINOR_THIRD > l.count Chordy.Interval.MAJOR_THIRD ∧
      l.count Chordy.Interval.DIMINISHED_FIFTH > l.count Chordy.Interval.PERFECT_FIFTH ∧
      l.count Chordy.Interval.DIMINISHED_FIFTH > l.count Chordy.Interval.AUGMENTED_FIFTH) ∧
    (Chordy.ChordQuality.detect l = some Chordy.ChordQuality.Augmented ↔
      l.count Chordy.Interval.MAJOR_THIRD > l.count Chordy.Interval.MINOR_THIRD ∧
      l.count Chordy.Interval.AUGMENTED_FIFTH > l.count Chordy.Interval.PERFECT_FIFTH ∧
      l.count Chordy.Interval.AUGMENTED_FIFTH > l.count Chordy.Interval.DIMINISHED_FIFTH) := by
  unfold Chordy.ChordQuality.detect
  dsimp only
  split_ifs <;> simp_all <;> omega

/-- C9 witness: the amended characterization applied at the two literal
scenarios — {unison, major third, perfect fifth} detects as Major and
{unison, minor third, diminished fifth} detects as Diminished. -/
theorem c9_quality_detection_witness :
    Chordy.ChordQuality.detect [Chordy.Interval.UNISON, Chordy.Interval.MAJOR_THIRD,
        Chordy.Interval.PERFECT_FIFTH] = some Chordy.ChordQuality.Major ∧
    Chordy.ChordQuality.detect [Chordy.Interval.UNISON, Chordy.Interval.MINOR_THIRD,
        Chordy.Interval.DIMINISHED_FIFTH] = some Chordy.ChordQuality.Diminished :=
  ⟨(c9_quality_detection_by_counts _).1.mpr (by refine ⟨by decide, Or.inl (by decide)⟩),
   (c9_quality_detection_by_counts _).2.2.1.mpr (by refine ⟨by decide, by decide, by decide⟩)⟩
